import Mathlib

/-!
Shallow embedding of GeoShapely (src/geoshapely/geoshape.py and
src/geoshapely/ops.py).

A GeoShape is a shapely geometry carrying an optional coordinate reference
system (CRS).  The embedding models:

  * resolved `pyproj.CRS` values as an abstract identifier type `CRS`;
  * the coordinate data of a geometry as a list of integer pairs
    (claims concern only whether the data is preserved, never geometric
    computations);
  * Python object identity and in-place mutation by explicit state passing:
    every method returns its value together with the post-call state of
    `self`, and a returned `Bool` records whether the returned object is
    the very `self` object (`True`) or a fresh copy (`False`);
  * raised Python exceptions as `Except Err`;
  * the external pyproj library (`CRS.from_user_input`,
    `Transformer.from_crs` and the coordinate transformation itself) by
    small concrete models, documented at each definition.
-/

namespace GeoShapely

/-- A resolved `pyproj.CRS` value, modelled as an abstract identifier with
decidable equality (pyproj CRS values compare with `==`). -/
structure CRS where
  code : Nat
deriving DecidableEq, Repr

/-- The class of a CRS-aware geometry: `GeoPoint`, `GeoLineString`,
`GeoPolygon` or `GeoLinearRing` (geoshape.py lines 196-217). -/
inductive GeoKind
| point
| lineString
| polygon
| linearRing
deriving DecidableEq, Repr

/-- A CRS-aware geometry (an instance of a `GeoBaseGeometry` subclass):
its class, its `_crs` field, and its coordinate data. -/
structure GeoShape where
  kind : GeoKind
  crs : Option CRS
  coords : List (Int × Int)
deriving DecidableEq, Repr

/-- An arbitrary user representation of a CRS (string, code, structured
spec): either something the external parser can resolve, or not. -/
inductive UserRepr
| parsable (c : CRS)
| unparsable
deriving DecidableEq, Repr

/-- Model of the external library pyproj: `pyproj.CRS.from_user_input`
resolves a user representation or raises `CRSError` on input it cannot
handle. -/
def from_user_input : UserRepr → Except Unit CRS
  | .parsable c => .ok c
  | .unparsable => .error ()

/-- The exceptions the embedded code can raise.
`typeError` is the `TypeError` of ops.py line 43; `crsConflict` the
`ValueError` of geoshape.py line 119; `incompatibleTransformer` the
`ValueError` of geoshape.py lines 174 and 180; `crsError` the pyproj
`CRSError` (unparsable CRS input, or `Transformer.from_crs` given an
invalid target). -/
inductive Err
| typeError
| crsConflict
| incompatibleTransformer
| crsError
deriving DecidableEq, Repr

/-- The possible values of the `crs` argument accepted by `_parse_crs`
(geoshape.py lines 43-71): `None`, an already resolved `pyproj.CRS`, a
CRS-aware geometry, or an arbitrary user representation. -/
inductive CrsInput
| null
| crs (c : CRS)
| geoshape (g : GeoShape)
| user (u : UserRepr)
deriving DecidableEq, Repr

/-- Embedding of `GeoBaseGeometry._parse_crs` (geoshape.py lines 43-71):
`None` is returned as is; a GeoShape yields its attached `crs`; a resolved
`pyproj.CRS` is returned unchanged; anything else goes to
`pyproj.CRS.from_user_input`, whose failure (`CRSError`) propagates. -/
def parse_crs : CrsInput → Except Err (Option CRS)
  | .null => .ok none
  | .geoshape g => .ok g.crs
  | .crs c => .ok (some c)
  | .user u =>
    match from_user_input u with
    | .ok c => .ok (some c)
    | .error _ => .error .crsError

/-- Embedding of `GeoBaseGeometry.set_crs` (geoshape.py lines 77-130).
Returns the raised exception or the returned object together with an
is-`self` flag, paired with the post-call state of `self`. -/
def set_crs (self : GeoShape) (cin : CrsInput) (inplace allow_override : Bool) :
    Except Err (GeoShape × Bool) × GeoShape :=
  match parse_crs cin with
  | .error e => (.error e, self)
  | .ok crs =>
    if self.crs ≠ none ∧ allow_override = false ∧ self.crs ≠ crs then
      (.error .crsConflict, self)
    else
      let result : GeoShape := { self with crs := crs }
      if inplace then (.ok (result, true), result) else (.ok (result, false), self)

/-- A `pyproj.Transformer`: declared source and target CRS and the
coordinate mapping it performs. -/
structure Transformer where
  source_crs : Option CRS
  target_crs : Option CRS
  fn : Int × Int → Int × Int

/-- Model of the external library pyproj: the coordinate transformation
between two CRSes.  The claims never depend on the transformed values, so
any concrete non-identity function of the two CRSes serves. -/
def pyprojTransform (src tgt : CRS) (p : Int × Int) : Int × Int :=
  (p.1 + Int.ofNat src.code - Int.ofNat tgt.code, p.2)

/-- Model of the external library pyproj: `pyproj.Transformer.from_crs`
builds a transformer whose declared source and target are the given
CRSes; a `None` target is not a valid CRS and raises `CRSError`. -/
def Transformer.fromCrs (src : CRS) (tgt : Option CRS) : Except Err Transformer :=
  match tgt with
  | none => .error .crsError
  | some t => .ok ⟨some src, some t, pyprojTransform src t⟩

/-- Re-inject an already parsed optional CRS as a `_parse_crs` input:
geoshape.py line 186 passes the parsed `crs` of `to_crs` back into
`set_crs`, which parses it again (`_parse_crs` is the identity on `None`
and on resolved CRS values). -/
def CrsInput.ofOption : Option CRS → CrsInput
  | none => .null
  | some c => .crs c

/-- Embedding of geoshape.py lines 185-193, the part of
`GeoBaseGeometry.to_crs` after the transformer compatibility checks:
with no current CRS it degrades to `set_crs`; otherwise a transformer is
obtained (built by `Transformer.from_crs` when none was supplied, which
fails on a `None` target), a deep copy of `self` is transformed and its
`_crs` field set to the parsed target. -/
def to_crs_checked (self : GeoShape) (crs : Option CRS) (transformer : Option Transformer) :
    Except Err (GeoShape × Bool) × GeoShape :=
  match self.crs with
  | none => set_crs self (CrsInput.ofOption crs) false false
  | some c0 =>
    let tr : Except Err Transformer :=
      match transformer with
      | some t => .ok t
      | none => Transformer.fromCrs c0 crs
    match tr with
    | .error e => (.error e, self)
    | .ok t =>
      let result : GeoShape := { self with coords := self.coords.map t.fn, crs := crs }
      (.ok (result, false), self)

/-- Embedding of `GeoBaseGeometry.to_crs` (geoshape.py lines 132-193):
parse the target, check a supplied transformer's declared source against
`self.crs` and its declared target against the parsed target (raising
`ValueError` on mismatch, before any mutation), then proceed as
`to_crs_checked`. -/
def to_crs (self : GeoShape) (cin : CrsInput) (transformer : Option Transformer) :
    Except Err (GeoShape × Bool) × GeoShape :=
  match parse_crs cin with
  | .error e => (.error e, self)
  | .ok crs =>
    match transformer with
    | some t =>
      if t.source_crs ≠ self.crs then (.error .incompatibleTransformer, self)
      else if t.target_crs ≠ crs then (.error .incompatibleTransformer, self)
      else to_crs_checked self crs transformer
    | none => to_crs_checked self crs none

/-- The class of a plain shapely geometry passed to
`make_geoshape_from_geom`. -/
inductive GeomKind
| point
| lineString
| polygon
| linearRing
| multiPoint
| multiLineString
| multiPolygon
deriving DecidableEq, Repr

/-- Python `isinstance(g, Point)` for a plain shapely geometry. -/
def isPoint : GeomKind → Bool
  | .point => true
  | _ => false

/-- Python `isinstance(g, LineString)` for a plain shapely geometry.
In shapely, `LinearRing` is a subclass of `LineString`, so a LinearRing
instance satisfies this check as well. -/
def isLineString : GeomKind → Bool
  | .lineString => true
  | .linearRing => true
  | _ => false

/-- Python `isinstance(g, Polygon)` for a plain shapely geometry. -/
def isPolygon : GeomKind → Bool
  | .polygon => true
  | _ => false

/-- Python `isinstance(g, LinearRing)` for a plain shapely geometry. -/
def isLinearRing : GeomKind → Bool
  | .linearRing => true
  | _ => false

/-- The argument of `make_geoshape_from_geom`: a plain shapely geometry
(class and coordinate data), a CRS-aware geometry, or an object that is
not a `BaseGeometry` at all. -/
inductive GeomInput
| plain (k : GeomKind) (coords : List (Int × Int))
| geo (g : GeoShape)
| notAGeometry
deriving DecidableEq, Repr

/-- The value `make_geoshape_from_geom` returns when it does not raise:
a GeoShape, or — because ops.py line 64 says `return TypeError(...)`
instead of `raise` — a `TypeError` exception object returned as an
ordinary value. -/
inductive MakeRet
| geoRet (g : GeoShape)
| typeErrorValue
deriving DecidableEq, Repr

/-- The `GeoPoint(...)`, `GeoLineString(...)`, `GeoPolygon(...)`,
`GeoLinearRing(...)` constructor calls of ops.py lines 54-61: parse the
`crs` keyword (`GeoBaseGeometry.__init__`, which can raise `CRSError`)
and copy the coordinate data of the shapely argument. -/
def mkGeoFromPlain (k : GeoKind) (coords : List (Int × Int)) (cin : CrsInput)
    (g : GeomInput) : Except Err MakeRet × GeomInput :=
  match parse_crs cin with
  | .error e => (.error e, g)
  | .ok o => (.ok (.geoRet ⟨k, o, coords⟩), g)

/-- Embedding of `make_geoshape_from_geom` (ops.py lines 10-67), paired
with the post-call state of the input.  A non-geometry raises
`TypeError`.  A GeoShape is deep-copied; if the copy carries a CRS it is
re-projected with `to_crs` (called on the copy, so the input is never
touched), otherwise `set_crs` is called on the original (not in place).
A plain geometry is dispatched through the `isinstance` chain of lines
54-61 (where the `LineString` test also captures `LinearRing`
instances); an unrecognized variant reaches line 64, which returns the
`TypeError` as a value instead of raising it. -/
def make_geoshape_from_geom (g : GeomInput) (cin : CrsInput) :
    Except Err MakeRet × GeomInput :=
  match g with
  | .notAGeometry => (.error .typeError, g)
  | .geo s =>
    if s.crs.isSome then
      match (to_crs s cin none).1 with
      | .error e => (.error e, .geo s)
      | .ok (r, _) => (.ok (.geoRet r), .geo s)
    else
      match set_crs s cin false false with
      | (.error e, s1) => (.error e, .geo s1)
      | (.ok (r, _), s1) => (.ok (.geoRet r), .geo s1)
  | .plain k coords =>
    if isPoint k then mkGeoFromPlain .point coords cin g
    else if isLineString k then mkGeoFromPlain .lineString coords cin g
    else if isPolygon k then mkGeoFromPlain .polygon coords cin g
    else if isLinearRing k then mkGeoFromPlain .linearRing coords cin g
    else (.ok .typeErrorValue, g)

/-! Helper lemmas shared by the claim theorems. -/

theorem parse_crs_ofOption (o : Option CRS) : parse_crs (CrsInput.ofOption o) = .ok o := by
  cases o <;> rfl

theorem set_crs_snd_not_inplace (x : GeoShape) (cin : CrsInput) (ao : Bool) :
    (set_crs x cin false ao).2 = x := by
  unfold set_crs
  cases hp : parse_crs cin with
  | error e => rfl
  | ok o =>
    dsimp only
    split
    · rfl
    · rfl

theorem set_crs_ok_parts (x : GeoShape) (cin : CrsInput) (inplace ao : Bool)
    (r : GeoShape) (b : Bool) (h : (set_crs x cin inplace ao).1 = Except.ok (r, b)) :
    b = inplace ∧ ∃ o, parse_crs cin = .ok o ∧ r = { x with crs := o } := by
  unfold set_crs at h
  cases hp : parse_crs cin with
  | error e => rw [hp] at h; exact absurd h (by simp)
  | ok o =>
    rw [hp] at h
    dsimp only at h
    split at h
    · exact absurd h (by simp)
    · cases hip : inplace <;> rw [hip] at h <;> simp at h <;>
        exact ⟨h.2, o, rfl, h.1.symm⟩

theorem to_crs_checked_snd (x : GeoShape) (o : Option CRS) (t? : Option Transformer) :
    (to_crs_checked x o t?).2 = x := by
  unfold to_crs_checked
  cases hx : x.crs with
  | none => exact set_crs_snd_not_inplace x (CrsInput.ofOption o) false
  | some c0 =>
    dsimp only
    split
    · rfl
    · rfl

theorem to_crs_checked_ok (x : GeoShape) (o : Option CRS) (t? : Option Transformer)
    (r : GeoShape) (b : Bool) (h : (to_crs_checked x o t?).1 = Except.ok (r, b)) :
    b = false ∧ r.crs = o := by
  unfold to_crs_checked at h
  cases hx : x.crs with
  | none =>
    rw [hx] at h
    obtain ⟨hb, o', ho', hr⟩ := set_crs_ok_parts x (CrsInput.ofOption o) false false r b h
    rw [parse_crs_ofOption] at ho'
    cases ho'
    exact ⟨hb, by rw [hr]⟩
  | some c0 =>
    rw [hx] at h
    dsimp only at h
    split at h
    · exact absurd h (by simp)
    · simp at h
      exact ⟨h.2, by rw [← h.1]⟩

theorem to_crs_snd (x : GeoShape) (cin : CrsInput) (t? : Option Transformer) :
    (to_crs x cin t?).2 = x := by
  unfold to_crs
  cases hp : parse_crs cin with
  | error e => rfl
  | ok o =>
    dsimp only
    cases t? with
    | none => exact to_crs_checked_snd x o none
    | some t =>
      dsimp only
      split
      · rfl
      · split
        · rfl
        · exact to_crs_checked_snd x o (some t)

theorem to_crs_ok_parts (x : GeoShape) (cin : CrsInput) (t? : Option Transformer)
    (r : GeoShape) (b : Bool) (h : (to_crs x cin t?).1 = Except.ok (r, b)) :
    b = false ∧ ∃ o, parse_crs cin = .ok o ∧ r.crs = o := by
  unfold to_crs at h
  cases hp : parse_crs cin with
  | error e => rw [hp] at h; exact absurd h (by simp)
  | ok o =>
    rw [hp] at h
    dsimp only at h
    cases t? with
    | none =>
      obtain ⟨hb, hcrs⟩ := to_crs_checked_ok x o none r b h
      exact ⟨hb, o, rfl, hcrs⟩
    | some t =>
      dsimp only at h
      split at h
      · exact absurd h (by simp)
      · split at h
        · exact absurd h (by simp)
        · obtain ⟨hb, hcrs⟩ := to_crs_checked_ok x o (some t) r b h
          exact ⟨hb, o, rfl, hcrs⟩

theorem mkGeoFromPlain_snd (k : GeoKind) (coords : List (Int × Int)) (cin : CrsInput)
    (g : GeomInput) : (mkGeoFromPlain k coords cin g).2 = g := by
  unfold mkGeoFromPlain
  cases hp : parse_crs cin with
  | error e => rfl
  | ok o => rfl

/-! Claim theorems. -/

/-- C1: the claim says every unrecognized input to `make_geoshape_from_geom`
raises a `TypeError`; but for a plain geometry of an unrecognized variant
(here a MultiPoint) the code reaches ops.py line 64, which says
`return TypeError(...)` instead of `raise`, so the call succeeds and hands
the `TypeError` object back as its return value. -/
theorem make_unrecognized_variant_returns_typeerror_value :
    make_geoshape_from_geom (.plain .multiPoint [(0, 0), (1, 1)]) (.crs ⟨4326⟩)
      = (Except.ok MakeRet.typeErrorValue, .plain .multiPoint [(0, 0), (1, 1)]) := rfl

/-- C2: for a geometry whose CRS is `c1` and an input resolving to `c2 ≠ c1`,
`set_crs` with `allow_override = False` raises the `CrsConflict` `ValueError`
and leaves the geometry unchanged; with `allow_override = True` it succeeds,
the result's CRS is `c2` and the coordinate data is unchanged. -/
theorem set_crs_conflict_unless_override (x : GeoShape) (c1 c2 : CRS) (cin : CrsInput)
    (inplace : Bool) (h1 : x.crs = some c1) (h2 : parse_crs cin = Except.ok (some c2))
    (hne : c2 ≠ c1) :
    set_crs x cin inplace false = (Except.error Err.crsConflict, x)
    ∧ ∃ r b, (set_crs x cin inplace true).1 = Except.ok (r, b)
        ∧ r.crs = some c2 ∧ r.coords = x.coords := by
  have hcond : x.crs ≠ none ∧ (false : Bool) = false ∧ x.crs ≠ some c2 := by
    refine ⟨by simp [h1], rfl, ?_⟩
    rw [h1]
    intro h
    exact hne (Option.some.inj h).symm
  constructor
  · unfold set_crs
    rw [h2]
    dsimp only
    rw [if_pos hcond]
  · unfold set_crs
    rw [h2]
    dsimp only
    rw [if_neg (by simp)]
    cases inplace with
    | false => exact ⟨{ x with crs := some c2 }, false, rfl, rfl, rfl⟩
    | true => exact ⟨{ x with crs := some c2 }, true, rfl, rfl, rfl⟩

theorem set_crs_conflict_unless_override_witness :
    (set_crs ⟨GeoKind.point, some ⟨1⟩, [(0, 0)]⟩ (.crs ⟨2⟩) false false
      = (Except.error Err.crsConflict, ⟨GeoKind.point, some ⟨1⟩, [(0, 0)]⟩))
    ∧ ∃ r b, (set_crs ⟨GeoKind.point, some ⟨1⟩, [(0, 0)]⟩ (.crs ⟨2⟩) false true).1
        = Except.ok (r, b) ∧ r.crs = some ⟨2⟩
        ∧ r.coords = (GeoShape.mk GeoKind.point (some ⟨1⟩) [(0, 0)]).coords :=
  set_crs_conflict_unless_override _ ⟨1⟩ ⟨2⟩ _ false rfl rfl (by decide)

/-- C3 counterexample: the claim says that when `x.crs` is `None`, `to_crs`
behaves as `set_crs` for any transformer argument and raises no error; but
a supplied transformer whose declared source CRS is not `None` fails the
compatibility check of geoshape.py line 173 and raises `ValueError`. -/
theorem to_crs_nullcrs_with_transformer_raises :
    (to_crs ⟨GeoKind.point, none, [(1, 1)]⟩ (.crs ⟨2⟩)
        (some ⟨some ⟨3⟩, some ⟨2⟩, fun p => p⟩)).1
      = Except.error Err.incompatibleTransformer := rfl

/-- C3 (amended): for a geometry with no CRS, when no transformer is
supplied — or the supplied transformer passes the compatibility checks,
i.e. its declared source CRS is `None` and its declared target equals the
resolved target — `to_crs` behaves exactly as `set_crs`: it returns a
fresh copy with the resolved CRS set, the coordinates untouched, and
raises no error. -/
theorem to_crs_nullcrs_degrades_to_set_crs (x : GeoShape) (cin : CrsInput)
    (t? : Option Transformer) (o : Option CRS) (hx : x.crs = none)
    (hp : parse_crs cin = Except.ok o)
    (ht : ∀ t, t? = some t → t.source_crs = none ∧ t.target_crs = o) :
    to_crs x cin t? = set_crs x cin false false
    ∧ ∃ r, (to_crs x cin t?).1 = Except.ok (r, false)
        ∧ r.crs = o ∧ r.coords = x.coords := by
  have hset : set_crs x cin false false
      = (Except.ok ({ x with crs := o }, false), x) := by
    unfold set_crs
    rw [hp]
    dsimp only
    rw [if_neg (fun hc => hc.1 hx)]
    rfl
  have hset' : set_crs x (CrsInput.ofOption o) false false
      = (Except.ok ({ x with crs := o }, false), x) := by
    unfold set_crs
    rw [parse_crs_ofOption]
    dsimp only
    rw [if_neg (fun hc => hc.1 hx)]
    rfl
  have hto : to_crs x cin t? = set_crs x (CrsInput.ofOption o) false false := by
    unfold to_crs
    rw [hp]
    dsimp only
    cases t? with
    | none =>
      unfold to_crs_checked
      rw [hx]
    | some t =>
      obtain ⟨hs, htg⟩ := ht t rfl
      have h1 : ¬ t.source_crs ≠ x.crs := by rw [hs, hx]; exact fun h => h rfl
      have h2 : ¬ t.target_crs ≠ o := by rw [htg]; exact fun h => h rfl
      dsimp only
      rw [if_neg h1, if_neg h2]
      unfold to_crs_checked
      rw [hx]
  refine ⟨by rw [hto, hset', hset], { x with crs := o }, ?_, rfl, rfl⟩
  rw [hto, hset']

theorem to_crs_nullcrs_degrades_to_set_crs_witness :
    (to_crs ⟨GeoKind.point, none, [(1, 1)]⟩ (.crs ⟨2⟩) none
      = set_crs ⟨GeoKind.point, none, [(1, 1)]⟩ (.crs ⟨2⟩) false false)
    ∧ ∃ r, (to_crs ⟨GeoKind.point, none, [(1, 1)]⟩ (.crs ⟨2⟩) none).1
        = Except.ok (r, false) ∧ r.crs = some ⟨2⟩
        ∧ r.coords = (GeoShape.mk GeoKind.point none [(1, 1)]).coords :=
  to_crs_nullcrs_degrades_to_set_crs _ _ none (some ⟨2⟩) rfl rfl (fun _ h => nomatch h)

/-- C4: a supplied transformer whose declared source CRS differs from the
geometry's current CRS, or whose declared target differs from the resolved
target, makes `to_crs` raise the `IncompatibleTransformer` `ValueError`,
with the geometry left unchanged. -/
theorem to_crs_incompatible_transformer (x : GeoShape) (cin : CrsInput) (t : Transformer)
    (o : Option CRS) (c0 : CRS) (_hx : x.crs = some c0) (hp : parse_crs cin = Except.ok o)
    (hmis : t.source_crs ≠ x.crs ∨ t.target_crs ≠ o) :
    to_crs x cin (some t) = (Except.error Err.incompatibleTransformer, x) := by
  unfold to_crs
  rw [hp]
  dsimp only
  by_cases hs : t.source_crs ≠ x.crs
  · rw [if_pos hs]
  · rw [if_neg hs, if_pos (hmis.resolve_left hs)]

theorem to_crs_incompatible_transformer_witness :
    to_crs ⟨GeoKind.point, some ⟨1⟩, [(0, 0)]⟩ (.crs ⟨2⟩)
        (some ⟨some ⟨3⟩, some ⟨2⟩, fun p => p⟩)
      = (Except.error Err.incompatibleTransformer, ⟨GeoKind.point, some ⟨1⟩, [(0, 0)]⟩) :=
  to_crs_incompatible_transformer _ _ _ (some ⟨2⟩) ⟨1⟩ rfl rfl (Or.inl (by decide))

/-- C5: `to_crs` never mutates its receiver — the post-call state of the
geometry is always its pre-call state — and whenever it returns a value,
that value is a fresh object (not the receiver) whose CRS is the resolved
target. -/
theorem to_crs_never_mutates_and_returns_fresh (x : GeoShape) (cin : CrsInput)
    (t? : Option Transformer) :
    (to_crs x cin t?).2 = x
    ∧ ∀ r b, (to_crs x cin t?).1 = Except.ok (r, b) →
        b = false ∧ ∃ o, parse_crs cin = Except.ok o ∧ r.crs = o :=
  ⟨to_crs_snd x cin t?, fun r b h => to_crs_ok_parts x cin t? r b h⟩

theorem to_crs_never_mutates_witness :
    (to_crs ⟨GeoKind.point, some ⟨1⟩, [(0, 0)]⟩ (.crs ⟨2⟩) none).2
        = ⟨GeoKind.point, some ⟨1⟩, [(0, 0)]⟩
    ∧ ((false : Bool) = false ∧ ∃ o, parse_crs (.crs ⟨2⟩) = Except.ok o
        ∧ (GeoShape.mk GeoKind.point (some ⟨2⟩) [(-1, 0)]).crs = o) :=
  ⟨(to_crs_never_mutates_and_returns_fresh ⟨GeoKind.point, some ⟨1⟩, [(0, 0)]⟩
      (.crs ⟨2⟩) none).1,
   (to_crs_never_mutates_and_returns_fresh ⟨GeoKind.point, some ⟨1⟩, [(0, 0)]⟩
      (.crs ⟨2⟩) none).2
     ⟨GeoKind.point, some ⟨2⟩, [(-1, 0)]⟩ false rfl⟩

/-- C6: on a geometry with no CRS, `set_crs` with `inplace = False` returns
a fresh copy (flag `false`, the original keeps `crs = None`) carrying the
new CRS and the same coordinates; with `inplace = True` it returns the
receiver itself (flag `true`) with its CRS field updated. -/
theorem set_crs_on_crs_free (x : GeoShape) (cin : CrsInput) (c : CRS)
    (hx : x.crs = none) (hp : parse_crs cin = Except.ok (some c)) :
    set_crs x cin false false = (Except.ok ({ x with crs := some c }, false), x)
    ∧ set_crs x cin true false
        = (Except.ok ({ x with crs := some c }, true), { x with crs := some c }) := by
  refine ⟨?_, ?_⟩ <;>
  · unfold set_crs
    rw [hp]
    dsimp only
    rw [if_neg (fun hc => hc.1 hx)]
    rfl

theorem set_crs_on_crs_free_witness :
    set_crs ⟨GeoKind.point, none, [(0, 0)]⟩ (.crs ⟨2⟩) false false
      = (Except.ok (⟨GeoKind.point, some ⟨2⟩, [(0, 0)]⟩, false),
         ⟨GeoKind.point, none, [(0, 0)]⟩)
    ∧ set_crs ⟨GeoKind.point, none, [(0, 0)]⟩ (.crs ⟨2⟩) true false
      = (Except.ok (⟨GeoKind.point, some ⟨2⟩, [(0, 0)]⟩, true),
         ⟨GeoKind.point, some ⟨2⟩, [(0, 0)]⟩) :=
  set_crs_on_crs_free ⟨GeoKind.point, none, [(0, 0)]⟩ (.crs ⟨2⟩) ⟨2⟩ rfl rfl

/-- C7: the claim says every recognized plain variant maps to the matching
CRS-aware variant; but a plain LinearRing is caught by the
`isinstance(_, LineString)` test of ops.py line 56 (LinearRing subclasses
LineString in shapely), so it is wrapped as a GeoLineString — the
GeoLinearRing branch of line 60 is unreachable — contradicting
test_ops.py line 31. -/
theorem make_linearring_constructs_linestring_variant :
    make_geoshape_from_geom (.plain .linearRing [(0, 0), (0, 1), (1, 1), (1, 0)])
        (.crs ⟨4326⟩)
      = (Except.ok (MakeRet.geoRet
            ⟨GeoKind.lineString, some ⟨4326⟩, [(0, 0), (0, 1), (1, 1), (1, 0)]⟩),
         .plain .linearRing [(0, 0), (0, 1), (1, 1), (1, 0)])
    ∧ GeoKind.lineString ≠ GeoKind.linearRing := ⟨rfl, by decide⟩

/-- C8: `_parse_crs` is a total case analysis: `None` yields `None`; a
resolved CRS yields itself; a CRS-aware geometry yields its attached CRS
(possibly `None`); any other representation goes to the external parser,
whose failure surfaces as the `CRSError` parse error. -/
theorem parse_crs_total_cases :
    parse_crs .null = Except.ok none
    ∧ (∀ c, parse_crs (.crs c) = Except.ok (some c))
    ∧ (∀ g, parse_crs (.geoshape g) = Except.ok g.crs)
    ∧ (∀ c, parse_crs (.user (.parsable c)) = Except.ok (some c))
    ∧ parse_crs (.user .unparsable) = Except.error Err.crsError :=
  ⟨rfl, fun _ => rfl, fun _ => rfl, fun _ => rfl, rfl⟩

/-- C9: passing a CRS-carrying GeoShape to `make_geoshape_from_geom` with
the `crs` argument left as `None` does not return a plain copy: the code
calls `to_crs(crs=None)` on the copy, which asks pyproj for a transformer
to a `None` target and fails with `CRSError`. -/
theorem make_geo_crs_with_null_target_errors (s : GeoShape) (c0 : CRS)
    (hs : s.crs = some c0) :
    make_geoshape_from_geom (.geo s) .null = (Except.error Err.crsError, .geo s) := by
  have h1 : s.crs.isSome = true := by rw [hs]; rfl
  have h2 : (to_crs s .null none).1 = Except.error Err.crsError := by
    show (to_crs_checked s none none).1 = Except.error Err.crsError
    unfold to_crs_checked
    rw [hs]
    rfl
  unfold make_geoshape_from_geom
  dsimp only
  rw [if_pos h1, h2]

theorem make_geo_crs_with_null_target_errors_witness :
    make_geoshape_from_geom (.geo ⟨GeoKind.point, some ⟨1⟩, [(0, 0)]⟩) .null
      = (Except.error Err.crsError, .geo ⟨GeoKind.point, some ⟨1⟩, [(0, 0)]⟩) :=
  make_geo_crs_with_null_target_errors ⟨GeoKind.point, some ⟨1⟩, [(0, 0)]⟩ ⟨1⟩ rfl

/-- C10: `make_geoshape_from_geom` never mutates its input: whatever the
input and the `crs` argument, and whether the call returns or raises, the
post-call state of the input equals its pre-call state. -/
theorem make_geoshape_from_geom_never_mutates (g : GeomInput) (cin : CrsInput) :
    (make_geoshape_from_geom g cin).2 = g := by
  unfold make_geoshape_from_geom
  cases g with
  | notAGeometry => rfl
  | geo s =>
    dsimp only
    split
    · cases h : (to_crs s cin none).1 with
      | error e => rfl
      | ok rb => obtain ⟨r, b⟩ := rb; rfl
    · have hsnd := set_crs_snd_not_inplace s cin false
      rcases h : set_crs s cin false false with ⟨e | ⟨r, b⟩, s1⟩ <;>
        (rw [h] at hsnd; dsimp only at hsnd ⊢) <;> rw [hsnd]
  | plain k coords =>
    dsimp only
    split
    · exact mkGeoFromPlain_snd _ coords cin _
    · split
      · exact mkGeoFromPlain_snd _ coords cin _
      · split
        · exact mkGeoFromPlain_snd _ coords cin _
        · split
          · exact mkGeoFromPlain_snd _ coords cin _
          · rfl

end GeoShapely
